import Mathlib

/-! Shallow embedding of `crates/anstyle/src/color.rs` (NCrashed/anstyle).

The Rust code writes escape-sequence fragments into a `core::fmt::Write`
sink.  We model the sink as a `String` accumulator: each `ansi_fmt`
function takes the sink contents so far and returns the sink contents
after the call, so every `write!(f, ...)` becomes an append.  Rendering a
`DisplayColor` means formatting it into an initially empty sink.
-/

namespace Anstyle

/-- Available 4-bit ANSI color codes (`enum AnsiColor`). -/
inductive AnsiColor where
  | Black
  | Red
  | Green
  | Yellow
  | Blue
  | Magenta
  | Cyan
  | White
  | BrightBlack
  | BrightRed
  | BrightGreen
  | BrightYellow
  | BrightBlue
  | BrightMagenta
  | BrightCyan
  | BrightWhite
deriving DecidableEq, Repr

/-- Index into the 8-bit ANSI color palette (`struct XTermColor(pub u8)`).
The wrapped byte is modelled as a `Nat`; every reachable value is < 256. -/
structure XTermColor where
  index : Nat
deriving DecidableEq, Repr

/-- 24-bit ANSI RGB color codes (`struct RgbColor(pub u8, pub u8, pub u8)`). -/
structure RgbColor where
  r : Nat
  g : Nat
  b : Nat
deriving DecidableEq, Repr

/-- Any ANSI color code scheme (`enum Color`). -/
inductive Color where
  | Ansi (color : AnsiColor)
  | XTerm (color : XTermColor)
  | Rgb (color : RgbColor)
deriving DecidableEq, Repr

/-- `enum ColorContext` — routes formatting, carries no state. -/
inductive ColorContext where
  | Background
  | Foreground
  | Underline
deriving DecidableEq, Repr

/-- `AnsiColor::is_bright`. -/
def AnsiColor.is_bright : AnsiColor → Bool
  | .Black => false
  | .Red => false
  | .Green => false
  | .Yellow => false
  | .Blue => false
  | .Magenta => false
  | .Cyan => false
  | .White => false
  | .BrightBlack => true
  | .BrightRed => true
  | .BrightGreen => true
  | .BrightYellow => true
  | .BrightBlue => true
  | .BrightMagenta => true
  | .BrightCyan => true
  | .BrightWhite => true

/-- `AnsiColor::suffix`. -/
def AnsiColor.suffix : AnsiColor → String
  | .Black => "0"
  | .Red => "1"
  | .Green => "2"
  | .Yellow => "3"
  | .Blue => "4"
  | .Magenta => "5"
  | .Cyan => "6"
  | .White => "7"
  | .BrightBlack => "0"
  | .BrightRed => "1"
  | .BrightGreen => "2"
  | .BrightYellow => "3"
  | .BrightBlue => "4"
  | .BrightMagenta => "5"
  | .BrightCyan => "6"
  | .BrightWhite => "7"

/-- `XTermColor::into_ansi`. -/
def XTermColor.into_ansi (self : XTermColor) : Option AnsiColor :=
  match self.index with
  | 0 => some AnsiColor.Black
  | 1 => some AnsiColor.Red
  | 2 => some AnsiColor.Green
  | 3 => some AnsiColor.Yellow
  | 4 => some AnsiColor.Blue
  | 5 => some AnsiColor.Magenta
  | 6 => some AnsiColor.Cyan
  | 7 => some AnsiColor.White
  | 8 => some AnsiColor.BrightBlack
  | 9 => some AnsiColor.BrightRed
  | 10 => some AnsiColor.BrightGreen
  | 11 => some AnsiColor.BrightYellow
  | 12 => some AnsiColor.BrightBlue
  | 13 => some AnsiColor.BrightMagenta
  | 14 => some AnsiColor.BrightCyan
  | 15 => some AnsiColor.BrightWhite
  | _ => none

/-- `XTermColor::from_ansi`. -/
def XTermColor.from_ansi : AnsiColor → XTermColor
  | .Black => ⟨0⟩
  | .Red => ⟨1⟩
  | .Green => ⟨2⟩
  | .Yellow => ⟨3⟩
  | .Blue => ⟨4⟩
  | .Magenta => ⟨5⟩
  | .Cyan => ⟨6⟩
  | .White => ⟨7⟩
  | .BrightBlack => ⟨8⟩
  | .BrightRed => ⟨9⟩
  | .BrightGreen => ⟨10⟩
  | .BrightYellow => ⟨11⟩
  | .BrightBlue => ⟨12⟩
  | .BrightMagenta => ⟨13⟩
  | .BrightCyan => ⟨14⟩
  | .BrightWhite => ⟨15⟩

/-- `impl AnsiColorFmt for XTermColor`: writes the context prefix
(`"48;"` for `Foreground`, `"38;"` for `Background`, `"58;"` for
`Underline` — exactly as the source has it), then `write!(f, "5;{}", self.index())`. -/
def XTermColor.ansi_fmt (self : XTermColor) (f : String) (context : ColorContext) : String :=
  let f := match context with
    | ColorContext.Foreground => f ++ "48;"
    | ColorContext.Background => f ++ "38;"
    | ColorContext.Underline => f ++ "58;"
  f ++ "5;" ++ toString self.index

/-- `impl AnsiColorFmt for AnsiColor`: matches on `(context, self.is_bright())`
exactly as the source does, delegating the `Underline` arm to
`XTermColor::from(*self)`. -/
def AnsiColor.ansi_fmt (self : AnsiColor) (f : String) (context : ColorContext) : String :=
  match context, self.is_bright with
  | ColorContext.Foreground, true => f ++ "10" ++ self.suffix
  | ColorContext.Background, true => f ++ "9" ++ self.suffix
  | ColorContext.Foreground, false => f ++ "4" ++ self.suffix
  | ColorContext.Background, false => f ++ "3" ++ self.suffix
  | ColorContext.Underline, _ => (XTermColor.from_ansi self).ansi_fmt f ColorContext.Underline

/-- `impl AnsiColorFmt for RgbColor`: context prefix (`"48;"` for
`Foreground`, `"38;"` for `Background`, `"58;"` for `Underline`), then
`write!(f, "2;{};{};{}", self.r(), self.g(), self.b())`. -/
def RgbColor.ansi_fmt (self : RgbColor) (f : String) (context : ColorContext) : String :=
  let f := match context with
    | ColorContext.Foreground => f ++ "48;"
    | ColorContext.Background => f ++ "38;"
    | ColorContext.Underline => f ++ "58;"
  f ++ "2;" ++ toString self.r ++ ";" ++ toString self.g ++ ";" ++ toString self.b

/-- `Color::ansi_fmt`: dispatch on the active variant. -/
def Color.ansi_fmt (self : Color) (f : String) (context : ColorContext) : String :=
  match self with
  | .Ansi color => color.ansi_fmt f context
  | .XTerm color => color.ansi_fmt f context
  | .Rgb color => color.ansi_fmt f context

/-- `trait AnsiColorFmt`. -/
class AnsiColorFmt (C : Type) where
  ansi_fmt : C → String → ColorContext → String

instance : AnsiColorFmt Color := ⟨Color.ansi_fmt⟩

instance : AnsiColorFmt AnsiColor := ⟨AnsiColor.ansi_fmt⟩

instance : AnsiColorFmt XTermColor := ⟨XTermColor.ansi_fmt⟩

instance : AnsiColorFmt RgbColor := ⟨RgbColor.ansi_fmt⟩

/-- `struct DisplayColor<C: AnsiColorFmt>`. -/
structure DisplayColor (C : Type) [AnsiColorFmt C] where
  color : C
  context : ColorContext

/-- `impl Display for DisplayColor`: `write!(f, "\x1B[")`, then the wrapped
color's `ansi_fmt`, then `write!(f, "m")`. -/
def DisplayColor.fmt {C : Type} [AnsiColorFmt C] (self : DisplayColor C) (f : String) : String :=
  let f := f ++ "\x1B["
  let f := AnsiColorFmt.ansi_fmt self.color f self.context
  f ++ "m"

/-- The string produced by the `Display` implementation (formatting into an
empty sink, as `to_string` does). -/
def DisplayColor.render {C : Type} [AnsiColorFmt C] (self : DisplayColor C) : String :=
  self.fmt ""

/-- `Color::render_fg`. -/
def Color.render_fg (self : Color) : DisplayColor Color :=
  ⟨self, ColorContext.Foreground⟩

/-- `Color::render_bg`. -/
def Color.render_bg (self : Color) : DisplayColor Color :=
  ⟨self, ColorContext.Background⟩

/-- `AnsiColor::render_fg`. -/
def AnsiColor.render_fg (self : AnsiColor) : DisplayColor AnsiColor :=
  ⟨self, ColorContext.Foreground⟩

/-- `AnsiColor::render_bg`. -/
def AnsiColor.render_bg (self : AnsiColor) : DisplayColor AnsiColor :=
  ⟨self, ColorContext.Background⟩

/-- `XTermColor::render_fg`. -/
def XTermColor.render_fg (self : XTermColor) : DisplayColor XTermColor :=
  ⟨self, ColorContext.Foreground⟩

/-- `XTermColor::render_bg`. -/
def XTermColor.render_bg (self : XTermColor) : DisplayColor XTermColor :=
  ⟨self, ColorContext.Background⟩

/-- `RgbColor::render_fg`. -/
def RgbColor.render_fg (self : RgbColor) : DisplayColor RgbColor :=
  ⟨self, ColorContext.Foreground⟩

/-- `RgbColor::render_bg`. -/
def RgbColor.render_bg (self : RgbColor) : DisplayColor RgbColor :=
  ⟨self, ColorContext.Background⟩

/-- `impl From<AnsiColor> for Color`. -/
def Color.from_ansi_color (inner : AnsiColor) : Color :=
  Color.Ansi inner

/-- `impl From<XTermColor> for Color`. -/
def Color.from_xterm_color (inner : XTermColor) : Color :=
  Color.XTerm inner

/-- `impl From<RgbColor> for Color`. -/
def Color.from_rgb_color (inner : RgbColor) : Color :=
  Color.Rgb inner

end Anstyle

namespace Anstyle

/-- Writing the numeric body only appends: the bytes emitted by
`XTermColor::ansi_fmt` do not depend on the sink contents so far. -/
theorem xterm_ansi_fmt_shift (c : XTermColor) (f : String) (ctx : ColorContext) :
    c.ansi_fmt f ctx = f ++ c.ansi_fmt "" ctx := by
  cases ctx <;>
    simp [XTermColor.ansi_fmt, String.empty_append, String.append_assoc]

/-- Writing the numeric body only appends: the bytes emitted by
`RgbColor::ansi_fmt` do not depend on the sink contents so far. -/
theorem rgb_ansi_fmt_shift (c : RgbColor) (f : String) (ctx : ColorContext) :
    c.ansi_fmt f ctx = f ++ c.ansi_fmt "" ctx := by
  cases ctx <;>
    simp [RgbColor.ansi_fmt, String.empty_append, String.append_assoc]

/-- Writing the numeric body only appends: the bytes emitted by
`AnsiColor::ansi_fmt` do not depend on the sink contents so far. -/
theorem ansi_color_ansi_fmt_shift (c : AnsiColor) (f : String) (ctx : ColorContext) :
    c.ansi_fmt f ctx = f ++ c.ansi_fmt "" ctx := by
  cases ctx <;> cases c <;>
    simp [AnsiColor.ansi_fmt, AnsiColor.is_bright, AnsiColor.suffix,
      XTermColor.ansi_fmt, XTermColor.from_ansi,
      String.empty_append, String.append_assoc]

/-- Writing the numeric body only appends: the bytes emitted by
`Color::ansi_fmt` do not depend on the sink contents so far. -/
theorem color_ansi_fmt_shift (c : Color) (f : String) (ctx : ColorContext) :
    c.ansi_fmt f ctx = f ++ c.ansi_fmt "" ctx := by
  cases c with
  | Ansi color => exact ansi_color_ansi_fmt_shift color f ctx
  | XTerm color => exact xterm_ansi_fmt_shift color f ctx
  | Rgb color => exact rgb_ansi_fmt_shift color f ctx

/-- `DisplayColor::fmt` over a `Color` appends exactly the introducer, the
numeric body, and the terminator. -/
theorem DisplayColor.fmt_color_eq (c : Color) (ctx : ColorContext) (f : String) :
    DisplayColor.fmt ⟨c, ctx⟩ f = f ++ "\x1B[" ++ c.ansi_fmt "" ctx ++ "m" := by
  show c.ansi_fmt (f ++ "\x1B[") ctx ++ "m" = f ++ "\x1B[" ++ c.ansi_fmt "" ctx ++ "m"
  rw [color_ansi_fmt_shift]

/-- `DisplayColor::fmt` over an `AnsiColor` appends exactly the introducer,
the numeric body, and the terminator. -/
theorem DisplayColor.fmt_ansi_eq (c : AnsiColor) (ctx : ColorContext) (f : String) :
    DisplayColor.fmt ⟨c, ctx⟩ f = f ++ "\x1B[" ++ c.ansi_fmt "" ctx ++ "m" := by
  show c.ansi_fmt (f ++ "\x1B[") ctx ++ "m" = f ++ "\x1B[" ++ c.ansi_fmt "" ctx ++ "m"
  rw [ansi_color_ansi_fmt_shift]

/-- `DisplayColor::fmt` over an `XTermColor` appends exactly the introducer,
the numeric body, and the terminator. -/
theorem DisplayColor.fmt_xterm_eq (c : XTermColor) (ctx : ColorContext) (f : String) :
    DisplayColor.fmt ⟨c, ctx⟩ f = f ++ "\x1B[" ++ c.ansi_fmt "" ctx ++ "m" := by
  show c.ansi_fmt (f ++ "\x1B[") ctx ++ "m" = f ++ "\x1B[" ++ c.ansi_fmt "" ctx ++ "m"
  rw [xterm_ansi_fmt_shift]

/-- `DisplayColor::fmt` over an `RgbColor` appends exactly the introducer,
the numeric body, and the terminator. -/
theorem DisplayColor.fmt_rgb_eq (c : RgbColor) (ctx : ColorContext) (f : String) :
    DisplayColor.fmt ⟨c, ctx⟩ f = f ++ "\x1B[" ++ c.ansi_fmt "" ctx ++ "m" := by
  show c.ansi_fmt (f ++ "\x1B[") ctx ++ "m" = f ++ "\x1B[" ++ c.ansi_fmt "" ctx ++ "m"
  rw [rgb_ansi_fmt_shift]

end Anstyle

namespace Anstyle

/-- Claim C1: the spec says 4-bit legacy rendering follows the documented SGR
table (`AnsiColor::Black.render_fg()` = `"\x1B[30m"`, `.render_bg()` =
`"\x1B[40m"`, `AnsiColor::BrightRed.render_fg()` = `"\x1B[91m"`).  The code
does the opposite: this theorem evaluates the encoder at those inputs and
shows it emits the background table for `render_fg` and vice versa,
contradicting the claim and the enum's own per-variant doc comments. -/
theorem C1_legacy_codes_swapped_eval :
    (AnsiColor.Black.render_fg).render = "\x1B[40m" ∧
    (AnsiColor.Black.render_bg).render = "\x1B[30m" ∧
    (AnsiColor.BrightRed.render_fg).render = "\x1B[101m" ∧
    (AnsiColor.BrightRed.render_bg).render = "\x1B[91m" ∧
    (AnsiColor.Black.render_fg).render ≠ "\x1B[30m" ∧
    (AnsiColor.BrightRed.render_fg).render ≠ "\x1B[91m" := by
  exact ⟨rfl, rfl, rfl, rfl, by decide, by decide⟩

/-- Claim C2 counterexample: contrary to the claim, `XTermColor(200).render_fg()`
is not `"\x1B[38;5;200m"` and `RgbColor(1,2,3).render_bg()` is not
`"\x1B[48;2;1;2;3m"` — the source assigns the `48` prefix to the foreground
context and `38` to the background context. -/
theorem C2_documented_prefixes_counterexample :
    ((XTermColor.mk 200).render_fg).render ≠ "\x1B[38;5;200m" ∧
    ((RgbColor.mk 1 2 3).render_bg).render ≠ "\x1B[48;2;1;2;3m" := by
  exact ⟨by decide, by decide⟩

/-- Claim C2 (amended): the 8-bit palette and 24-bit RGB renders take the
prefixes the source actually assigns (48 for foreground, 38 for background):
`XTermColor(200).render_fg()` produces exactly `"\x1B[48;5;200m"` and
`RgbColor(1,2,3).render_bg()` produces exactly `"\x1B[38;2;1;2;3m"`. -/
theorem C2_swapped_prefixes_render :
    ((XTermColor.mk 200).render_fg).render = "\x1B[48;5;200m" ∧
    ((RgbColor.mk 1 2 3).render_bg).render = "\x1B[38;2;1;2;3m" := by
  exact ⟨rfl, rfl⟩

/-- Claim C3: for every `XTermColor` and every `RgbColor` value (and any sink
contents `f`), the encoder writes the numeric prefix `"48;"` in the
foreground context, `"38;"` in the background context and `"58;"` in the
underline context, followed by `"5;"` and the decimal index for the palette
form, and by `"2;"` and the decimal `r`, `g`, `b` for the RGB form. -/
theorem C3_extended_prefix_assignment (n r g b : Nat) (f : String) :
    XTermColor.ansi_fmt ⟨n⟩ f ColorContext.Foreground = f ++ "48;" ++ "5;" ++ toString n ∧
    XTermColor.ansi_fmt ⟨n⟩ f ColorContext.Background = f ++ "38;" ++ "5;" ++ toString n ∧
    XTermColor.ansi_fmt ⟨n⟩ f ColorContext.Underline = f ++ "58;" ++ "5;" ++ toString n ∧
    RgbColor.ansi_fmt ⟨r, g, b⟩ f ColorContext.Foreground
      = f ++ "48;" ++ "2;" ++ toString r ++ ";" ++ toString g ++ ";" ++ toString b ∧
    RgbColor.ansi_fmt ⟨r, g, b⟩ f ColorContext.Background
      = f ++ "38;" ++ "2;" ++ toString r ++ ";" ++ toString g ++ ";" ++ toString b ∧
    RgbColor.ansi_fmt ⟨r, g, b⟩ f ColorContext.Underline
      = f ++ "58;" ++ "2;" ++ toString r ++ ";" ++ toString g ++ ";" ++ toString b := by
  exact ⟨rfl, rfl, rfl, rfl, rfl, rfl⟩

/-- Claim C4: for every `AnsiColor` value (and any sink contents `f`), the
4-bit encoder writes `"10" ++ suffix` for a bright color in the foreground
context, `"9" ++ suffix` for a bright color in the background context,
`"4" ++ suffix` for a normal color in the foreground context and
`"3" ++ suffix` for a normal color in the background context, where the
suffix is a single decimal digit `"0"`–`"7"` shared pairwise between the
normal and bright member of the same hue. -/
theorem C4_legacy_body_by_context_and_brightness (a : AnsiColor) (f : String) :
    a.ansi_fmt f ColorContext.Foreground
      = f ++ (if a.is_bright then "10" else "4") ++ a.suffix ∧
    a.ansi_fmt f ColorContext.Background
      = f ++ (if a.is_bright then "9" else "3") ++ a.suffix ∧
    a.suffix ∈ (["0", "1", "2", "3", "4", "5", "6", "7"] : List String) ∧
    a.suffix.length = 1 ∧
    AnsiColor.Black.suffix = AnsiColor.BrightBlack.suffix ∧
    AnsiColor.Red.suffix = AnsiColor.BrightRed.suffix ∧
    AnsiColor.Green.suffix = AnsiColor.BrightGreen.suffix ∧
    AnsiColor.Yellow.suffix = AnsiColor.BrightYellow.suffix ∧
    AnsiColor.Blue.suffix = AnsiColor.BrightBlue.suffix ∧
    AnsiColor.Magenta.suffix = AnsiColor.BrightMagenta.suffix ∧
    AnsiColor.Cyan.suffix = AnsiColor.BrightCyan.suffix ∧
    AnsiColor.White.suffix = AnsiColor.BrightWhite.suffix := by
  cases a <;>
    exact ⟨rfl, rfl, by decide, by decide, rfl, rfl, rfl, rfl, rfl, rfl, rfl, rfl⟩

/-- Claim C5: for every `AnsiColor` value `a`, encoding in the underline
context produces the 8-bit palette form of the converted index: the body is
`"58;5;"` followed by the decimal rendering of
`XTermColor::from_ansi(a).index()`, a number in 0–15. -/
theorem C5_underline_delegates_to_palette (a : AnsiColor) (f : String) :
    a.ansi_fmt f ColorContext.Underline
      = f ++ "58;" ++ "5;" ++ toString (XTermColor.from_ansi a).index ∧
    a.ansi_fmt "" ColorContext.Underline
      = "58;5;" ++ toString (XTermColor.from_ansi a).index ∧
    (XTermColor.from_ansi a).index ≤ 15 := by
  cases a <;> exact ⟨rfl, by decide, by decide⟩

/-- Claim C6: round-trip — for every one of the 16 `AnsiColor` values `a`,
`XTermColor::from_ansi(a).into_ansi() == Some(a)`. -/
theorem C6_from_ansi_into_ansi_roundtrip (a : AnsiColor) :
    (XTermColor.from_ansi a).into_ansi = some a := by
  cases a <;> rfl

/-- Claim C7: for every `XTermColor` whose wrapped index is greater than 15,
`into_ansi()` returns `none` (absence via the optional result, total — no
panic or error); for every index 0–15 it returns `some` of the
corresponding `AnsiColor` (the one `from_ansi` maps back to that index). -/
theorem C7_into_ansi_partiality (n : Nat) :
    (15 < n → XTermColor.into_ansi ⟨n⟩ = none) ∧
    (n ≤ 15 → ∃ a, XTermColor.into_ansi ⟨n⟩ = some a ∧ XTermColor.from_ansi a = ⟨n⟩) := by
  constructor
  · intro h
    obtain ⟨m, rfl⟩ : ∃ m, n = m + 16 := ⟨n - 16, by omega⟩
    rfl
  · intro h
    interval_cases n <;> exact ⟨_, rfl, rfl⟩

/-- Witness for C7 at the concrete indices 200 and 9. -/
theorem C7_into_ansi_partiality_witness :
    XTermColor.into_ansi ⟨200⟩ = none ∧
    ∃ a, XTermColor.into_ansi ⟨9⟩ = some a ∧ XTermColor.from_ansi a = ⟨9⟩ :=
  ⟨(C7_into_ansi_partiality 200).1 (by decide), (C7_into_ansi_partiality 9).2 (by decide)⟩

end Anstyle

namespace Anstyle

/-- Claim C8: for every color value (`Color`, `AnsiColor`, `XTermColor` or
`RgbColor`) and either render direction, the rendered output is exactly one
escape sequence: the CSI introducer `ESC [` (0x1B 0x5B), then the color's
context-dependent numeric body, then the single terminator byte `m`, with
nothing before, between, or after. -/
theorem C8_render_framing (c : Color) (a : AnsiColor) (x : XTermColor) (r : RgbColor) :
    (c.render_fg).render = "\x1B[" ++ c.ansi_fmt "" ColorContext.Foreground ++ "m" ∧
    (c.render_bg).render = "\x1B[" ++ c.ansi_fmt "" ColorContext.Background ++ "m" ∧
    (a.render_fg).render = "\x1B[" ++ a.ansi_fmt "" ColorContext.Foreground ++ "m" ∧
    (a.render_bg).render = "\x1B[" ++ a.ansi_fmt "" ColorContext.Background ++ "m" ∧
    (x.render_fg).render = "\x1B[" ++ x.ansi_fmt "" ColorContext.Foreground ++ "m" ∧
    (x.render_bg).render = "\x1B[" ++ x.ansi_fmt "" ColorContext.Background ++ "m" ∧
    (r.render_fg).render = "\x1B[" ++ r.ansi_fmt "" ColorContext.Foreground ++ "m" ∧
    (r.render_bg).render = "\x1B[" ++ r.ansi_fmt "" ColorContext.Background ++ "m" := by
  refine ⟨?_, ?_, ?_, ?_, ?_, ?_, ?_, ?_⟩ <;>
    simp [Color.render_fg, Color.render_bg, AnsiColor.render_fg, AnsiColor.render_bg,
      XTermColor.render_fg, XTermColor.render_bg, RgbColor.render_fg, RgbColor.render_bg,
      DisplayColor.render, DisplayColor.fmt_color_eq, DisplayColor.fmt_ansi_eq,
      DisplayColor.fmt_xterm_eq, DisplayColor.fmt_rgb_eq, String.empty_append]

/-- Claim C9: rendering is a pure function of the color and the context, with
no hidden state — formatting the same color/context pair twice into a sink
appends the exact same byte string twice, and the rendered string of a pair
is always that same byte string. -/
theorem C9_render_deterministic (c : Color) (ctx : ColorContext) (s t : String) :
    DisplayColor.fmt ⟨c, ctx⟩ (DisplayColor.fmt ⟨c, ctx⟩ s)
      = s ++ DisplayColor.render ⟨c, ctx⟩ ++ DisplayColor.render ⟨c, ctx⟩ ∧
    DisplayColor.fmt ⟨c, ctx⟩ s = s ++ DisplayColor.render ⟨c, ctx⟩ ∧
    DisplayColor.fmt ⟨c, ctx⟩ t = t ++ DisplayColor.render ⟨c, ctx⟩ := by
  have h : ∀ u : String, DisplayColor.fmt ⟨c, ctx⟩ u = u ++ DisplayColor.render ⟨c, ctx⟩ := by
    intro u
    simp [DisplayColor.render, DisplayColor.fmt_color_eq, String.empty_append,
      String.append_assoc]
  exact ⟨by rw [h, h], h s, h t⟩

/-- Claim C10: dispatch coherence — for every inner color value and every
context, encoding the wrapped `Color` writes exactly the same bytes as
encoding the inner value directly, and rendering through
`Color::from(...)` equals rendering the inner value directly. -/
theorem C10_dispatch_coherence (a : AnsiColor) (x : XTermColor) (r : RgbColor)
    (ctx : ColorContext) (f : String) :
    (Color.Ansi a).ansi_fmt f ctx = a.ansi_fmt f ctx ∧
    (Color.XTerm x).ansi_fmt f ctx = x.ansi_fmt f ctx ∧
    (Color.Rgb r).ansi_fmt f ctx = r.ansi_fmt f ctx ∧
    ((Color.from_ansi_color a).render_fg).render = (a.render_fg).render ∧
    ((Color.from_ansi_color a).render_bg).render = (a.render_bg).render ∧
    ((Color.from_xterm_color x).render_fg).render = (x.render_fg).render ∧
    ((Color.from_xterm_color x).render_bg).render = (x.render_bg).render ∧
    ((Color.from_rgb_color r).render_fg).render = (r.render_fg).render ∧
    ((Color.from_rgb_color r).render_bg).render = (r.render_bg).render := by
  exact ⟨rfl, rfl, rfl, rfl, rfl, rfl, rfl, rfl, rfl⟩

end Anstyle
